import Mathlib

/-!
Verification of the YOLOv3 export pipeline (`models/export.py`).

The file shallowly embeds the pipeline:
* filename derivation via Python's `str.replace(".pt", ...)`;
* checkpoint resolution (`load_model`), with an explicit event trace recording
  the order of download, deserialization, model construction, recipe
  application and strict weight loading;
* the export-mode model update loop (buffer clearing, activation substitution,
  `Detect` export flag);
* the backend sequence (TorchScript, ONNX, CoreML), each backend wrapped in a
  try/except boundary, with the arguments of the standard ONNX export call and
  the reachability of the CoreML conversion recorded.
-/

namespace YoloExport

/-! ### Python `str.replace(".pt", repl)` -/

/-- Left-to-right, non-overlapping replacement of every occurrence of the
three-character pattern `.pt` by `repl`, as Python's `str.replace(".pt", repl)`
performs on the weights path. -/
def replacePtAux (repl : List Char) : List Char → List Char
  | [] => []
  | [c] => [c]
  | [c1, c2] => [c1, c2]
  | c1 :: c2 :: c3 :: rest =>
    if c1 = '.' ∧ c2 = 'p' ∧ c3 = 't' then
      repl ++ replacePtAux repl rest
    else
      c1 :: replacePtAux repl (c2 :: c3 :: rest)

/-- Whether the pattern `.pt` occurs somewhere in the character list. -/
def hasPtSub : List Char → Bool
  | c1 :: c2 :: c3 :: rest =>
    if c1 = '.' ∧ c2 = 'p' ∧ c3 = 't' then true
    else hasPtSub (c2 :: c3 :: rest)
  | _ => false

/-- Python `s.replace(".pt", repl)`. -/
def pyReplacePt (s repl : String) : String :=
  ⟨replacePtAux repl.data s.data⟩

/-- Whether `".pt"` occurs in `s` as a substring. -/
def containsDotPt (s : String) : Bool :=
  hasPtSub s.data

/-- `f = opt.weights.replace('.pt', '.torchscript.pt')` (export.py line 102). -/
def torchscriptFilename (w : String) : String :=
  pyReplacePt w ".torchscript.pt"

/-- `f = opt.weights.replace('.pt', '.onnx')` (export.py line 114). -/
def onnxFilename (w : String) : String :=
  pyReplacePt w ".onnx"

/-- `f = opt.weights.replace('.pt', '.mlmodel')` (export.py line 145). -/
def coremlFilename (w : String) : String :=
  pyReplacePt w ".mlmodel"

/-! ### Data model for checkpoint resolution (`load_model`) -/

/-- A tensor shape. -/
abbrev Shape := List Nat

/-- A state dict: parameter names with their tensor shapes. -/
abbrev StateDict := List (String × Shape)

/-- The payload `ckpt['model']` of a deserialized checkpoint: either a pickled
`nn.Module` (carrying its own state dict and its embedded `yaml` architecture
config) or a raw weight mapping. -/
inductive CkptPayload
  | packagedModel (stateDict : StateDict) (yaml : String)
  | rawWeights (stateDict : StateDict)
deriving DecidableEq

/-- The parsed CLI options of export.py. `cfg = none` models the falsy default
`''`, `sparsemlRecipe = none` models the default `None`. -/
structure Opt where
  weights : String
  imgSize : List Nat
  batchSize : Nat
  dynamic : Bool
  grid : Bool
  device : String
  cfg : Option String
  sparsemlRecipe : Option String
deriving DecidableEq

/-- Error taxonomy, in the vocabulary of the design spec.
`configurationError` embeds the `ValueError`s raised by `load_model`,
`weightMismatchError` the strict `load_state_dict` failure, `nameError` a
Python `NameError` on an unbound local, `backendError` any exception escaping
an external export collaborator. -/
inductive Err
  | configurationError (msg : String)
  | weightMismatchError
  | nameError (name : String)
  | backendError (msg : String)
deriving DecidableEq

/-- Observable events of `load_model`, in execution order:
`attempt_download`, `torch.load`, model construction (`attempt_load` or
`Model(...)`), setting `enable_on_initialize` on the recipe's quantization
modifiers, `manager.initialize(model, None)`, `model.load_state_dict`,
`model.float()`. -/
inductive Ev
  | download
  | deserialize
  | constructModel
  | enableQuantModifiers
  | recipeApply
  | loadStateDict
  | castFloat
deriving DecidableEq

/-- `isinstance(ckpt['model'], nn.Module)`. -/
def isPickedModel : CkptPayload → Bool
  | .packagedModel _ _ => true
  | .rawWeights _ => false

/-- The state dict carried by the checkpoint payload (`.float().state_dict()`
of the packaged module, or the raw mapping itself). -/
def ckptStateDict : CkptPayload → StateDict
  | .packagedModel w _ => w
  | .rawWeights w => w

/-- Modelled from the spec: the strict-load contract of the external
`model.load_state_dict(state_dict, strict=True)` call (export.py line 53),
whose body lives in the torch library, not in this repository. Every parameter
name of the model must be present in the mapping with a matching shape and the
mapping must contain no unexpected names; otherwise the whole load fails with
`WeightMismatchError` and no weights at all are loaded. -/
def loadStateDictStrict (params sd : StateDict) : Except Err StateDict :=
  if params.all (fun p => sd.lookup p.1 == some p.2) &&
      sd.all (fun q => (params.lookup q.1).isSome) then
    Except.ok params
  else
    Except.error Err.weightMismatchError

/-- The tail of `load_model`: the strict weight load followed by
`model.float()`; the trace records the `load_state_dict` call, and the cast
only when the load succeeded. -/
def finishLoad (params sd : StateDict) (tr : List Ev) :
    Except Err StateDict × List Ev :=
  match loadStateDictStrict params sd with
  | .error e => (Except.error e, tr ++ [Ev.loadStateDict])
  | .ok loaded => (Except.ok loaded, tr ++ [Ev.loadStateDict, Ev.castFloat])

/-- The architecture config handed to the `Model` constructor in the
non-`attempt_load` branch: `opt.cfg or ckpt['model'].yaml`. -/
def resolvedCfgName (opt : Opt) (ckpt : CkptPayload) : String :=
  match opt.cfg with
  | some c => c
  | none =>
    match ckpt with
    | .packagedModel _ yaml => yaml
    | .rawWeights _ => ""

/-- The parameter shapes of the model instance built by `load_model`: the
packaged module itself when `attempt_load` is used (embedded module and no cfg
override), otherwise a fresh `Model(opt.cfg or ckpt['model'].yaml)`. -/
def resolvedParams (modelOf : String → StateDict) (opt : Opt)
    (ckpt : CkptPayload) : StateDict :=
  if isPickedModel ckpt && opt.cfg.isNone then ckptStateDict ckpt
  else modelOf (resolvedCfgName opt ckpt)

/-- Embedding of `load_model(opt, device)` (export.py lines 30-56).
`modelOf` stands for the external `Model(cfg)` constructor, mapping an
architecture config to the parameter shapes of a freshly built model. The
second component is the trace of events performed, up to the point of failure
when the result is an error. In both construction branches the state dict to
be loaded is the one carried by the checkpoint payload (`model.state_dict()`
of the module loaded by `attempt_load`, `ckpt['model'].float().state_dict()`,
or the raw mapping). -/
def loadModel (modelOf : String → StateDict) (opt : Opt) (ckpt : CkptPayload) :
    Except Err StateDict × List Ev :=
  let tr0 : List Ev := [Ev.download, Ev.deserialize]
  if !isPickedModel ckpt && opt.cfg.isNone then
    (Except.error (Err.configurationError
      (opt.weights ++ " does not load a Module object and no Model cfg given to load into a Module")),
     tr0)
  else
    let tr1 := tr0 ++ [Ev.constructModel]
    match opt.sparsemlRecipe with
    | some _ =>
      if opt.grid || opt.dynamic then
        (Except.error (Err.configurationError
          "--grid and --dynamic not supported for exports with sparsification"),
         tr1)
      else
        finishLoad (resolvedParams modelOf opt ckpt) (ckptStateDict ckpt)
          (tr1 ++ [Ev.enableQuantModifiers, Ev.recipeApply])
    | none => finishLoad (resolvedParams modelOf opt ckpt) (ckptStateDict ckpt) tr1

/-! ### Export-mode transform (the model update loop, export.py lines 86-96) -/

/-- Activation attribute of a module: the torch reference implementations
(`nn.Hardswish`, `nn.SiLU`), their export-friendly replacements from
`utils.activations`, or any other activation. -/
inductive Activation
  | hardswishNN
  | siluNN
  | hardswishExport
  | siluExport
  | otherAct (tag : Nat)
deriving DecidableEq

/-- A submodule as seen by the update loop: its
`_non_persistent_buffers_set`, whether it is a `models.common.Conv`, its
`act` attribute, its `export` attribute, its parameters, and all remaining
attributes abstracted into one field. -/
structure PyModule where
  nonPersistentBuffersSet : List String
  isConv : Bool
  act : Activation
  exportFlag : Bool
  params : StateDict
  otherAttrs : Nat
deriving DecidableEq

/-- One iteration of `for k, m in model.named_modules()`: clear the
non-persistent buffer set and substitute an export-friendly activation on
`Conv` modules whose activation is `nn.Hardswish` or `nn.SiLU`. -/
def updateSubmodule (m : PyModule) : PyModule :=
  { m with
    nonPersistentBuffersSet := []
    act :=
      if m.isConv then
        match m.act with
        | Activation.hardswishNN => Activation.hardswishExport
        | Activation.siluNN => Activation.siluExport
        | a => a
      else m.act }

/-- `model.model[-1].export = g`: set the export flag of the last module
(the terminal `Detect` head) of the list. -/
def setLastExportFlag (g : Bool) : List PyModule → List PyModule
  | [] => []
  | [m] => [{ m with exportFlag := g }]
  | m :: m2 :: rest => m :: setLastExportFlag g (m2 :: rest)

/-- The whole update block (export.py lines 86-95): iterate
`updateSubmodule` over every submodule, then set the terminal detection
module's export flag to `not opt.grid`. -/
def updateModel (grid : Bool) (ms : List PyModule) : List PyModule :=
  setLastExportFlag (!grid) (ms.map updateSubmodule)

/-! ### Backend export sequence (export.py lines 100-149) -/

/-- The three export backends, in the fixed order they are attempted. -/
inductive Backend
  | torchscript
  | onnx
  | coreml
deriving DecidableEq

/-- Outcome status of one backend attempt. -/
inductive Status
  | success
  | failed
deriving DecidableEq

/-- The per-backend result of the spec's Sequencer: backend name, status, the
artifact path when the backend succeeded, and the captured error otherwise. -/
structure ExportResult where
  backend : Backend
  status : Status
  outputPath : Option String
  errorDetail : Option Err
deriving DecidableEq

/-- Outcomes of the external collaborators invoked by the backend blocks:
whether `torch.jit.trace` returns, whether `ts.save` returns, whether
`import onnx` succeeds, whether the ONNX serialization call returns, whether
the `skip_onnx_input_quantize` post-pass returns, whether
`onnx.load` + `onnx.checker.check_model` pass, whether `import coremltools`
succeeds, and whether `ct.convert` + `model.save` return. -/
structure Env where
  traceOk : Bool
  tsSaveOk : Bool
  onnxImportOk : Bool
  onnxExportOk : Bool
  skipQuantizeOk : Bool
  onnxCheckOk : Bool
  ctImportOk : Bool
  ctConvertOk : Bool
deriving DecidableEq

/-- The value `y` returned by the dry-run forward pass `y = model(img)`:
Python `None`, a single tensor, or a `(classes, boxes)` pair. -/
inductive PyVal
  | noneVal
  | tensor
  | pair
deriving DecidableEq

/-- The arguments of the standard-path `torch.onnx.export` call. -/
structure OnnxCall where
  inputNames : List String
  outputNames : List String
  opsetVersion : Nat
  hasDynamicAxes : Bool
deriving DecidableEq

/-- The standard-path `torch.onnx.export(model, img, f, verbose=False,
opset_version=12, input_names=['images'], output_names=..., dynamic_axes=...)`
call (export.py lines 116-119): output names are `['classes', 'boxes']` if
`y is None` else `['output']`; dynamic axes are passed iff `opt.dynamic`. -/
def standardOnnxExportArgs (opt : Opt) (y : PyVal) : OnnxCall :=
  { inputNames := ["images"]
    outputNames := if y = PyVal.noneVal then ["classes", "boxes"] else ["output"]
    opsetVersion := 12
    hasDynamicAxes := opt.dynamic }

/-- Body of the TorchScript try-block: trace, then save; the artifact name is
the weights path with `.pt` replaced by `.torchscript.pt`. -/
def torchscriptBody (opt : Opt) (env : Env) : Except Err String :=
  if !env.traceOk then Except.error (Err.backendError "torch.jit.trace")
  else if !env.tsSaveOk then Except.error (Err.backendError "ts.save")
  else Except.ok (torchscriptFilename opt.weights)

/-- Body of the ONNX try-block: import onnx, serialize (standard
`torch.onnx.export` path when no recipe is configured, `ModuleExporter` path
otherwise — where the failure of the `skip_onnx_input_quantize` post-pass is
swallowed by an inner bare except), then reload and run the checker. -/
def onnxBody (opt : Opt) (env : Env) : Except Err String :=
  if !env.onnxImportOk then Except.error (Err.backendError "import onnx")
  else if !env.onnxExportOk then Except.error (Err.backendError "onnx serialization")
  else if !env.onnxCheckOk then Except.error (Err.backendError "onnx.checker.check_model")
  else Except.ok (onnxFilename opt.weights)

/-- Body of the CoreML try-block: import coremltools, then
`ct.convert(ts, ...)` — which raises `NameError` on the unbound local `ts`
when the TorchScript tracing never completed — then save. -/
def coremlBody (opt : Opt) (env : Env) (tsBound : Bool) : Except Err String :=
  if !env.ctImportOk then Except.error (Err.backendError "import coremltools")
  else if !tsBound then Except.error (Err.nameError "ts")
  else if !env.ctConvertOk then Except.error (Err.backendError "ct.convert")
  else Except.ok (coremlFilename opt.weights)

/-- The try/except boundary around one backend: every exception of the body is
caught and converted into a `Failed` result; a normal return yields a
`Success` result with the artifact path. -/
def attemptBackend (b : Backend) (body : Except Err String) : ExportResult :=
  match body with
  | .ok f =>
    { backend := b, status := Status.success, outputPath := some f, errorDetail := none }
  | .error e =>
    { backend := b, status := Status.failed, outputPath := none, errorDetail := some e }

/-- Aggregate outcome of the backend sequence: the ordered result list, the
arguments of the standard-path `torch.onnx.export` call when it was reached,
whether the local `ts` was bound by the tracing, and whether control reached
the `ct.convert` statement of the CoreML block. -/
structure SeqOutcome where
  results : List ExportResult
  onnxCall : Option OnnxCall
  tsBound : Bool
  coremlConversionReached : Bool
deriving DecidableEq

/-- The backend sequence of `__main__` (export.py lines 100-149): the three
try-blocks in fixed order. `ts` is bound iff `torch.jit.trace` returned; the
standard `torch.onnx.export` call is reached iff `import onnx` succeeded and
no sparsification recipe is configured; the `ct.convert` statement is reached
iff `import coremltools` succeeded. -/
def runBackends (opt : Opt) (env : Env) (y : PyVal) : SeqOutcome :=
  let tsRes := attemptBackend Backend.torchscript (torchscriptBody opt env)
  let tsBound := env.traceOk
  let onnxRes := attemptBackend Backend.onnx (onnxBody opt env)
  let call :=
    if env.onnxImportOk && opt.sparsemlRecipe.isNone then
      some (standardOnnxExportArgs opt y)
    else none
  let mlRes := attemptBackend Backend.coreml (coremlBody opt env tsBound)
  { results := [tsRes, onnxRes, mlRes]
    onnxCall := call
    tsBound := tsBound
    coremlConversionReached := env.ctImportOk }

/-! ### Image-size expansion and grid-multiple validation -/

/-- Python list repetition `l * k`. -/
def pyListMul (l : List Nat) : Nat → List Nat
  | 0 => []
  | k + 1 => pyListMul l k ++ l

/-- `opt.img_size *= 2 if len(opt.img_size) == 1 else 1` (export.py line 69). -/
def expandImgSize (l : List Nat) : List Nat :=
  pyListMul l (if l.length = 1 then 2 else 1)

/-- Modelled from the spec: the external `check_img_size(x, gs)` collaborator
(`utils.general`, not in this repository's sources) verifies that a size is a
multiple of the grid stride, rounding it up to the nearest multiple. -/
def check_img_size (x gs : Nat) : Nat :=
  ((x + gs - 1) / gs) * gs

/-- `opt.img_size = [check_img_size(x, gs) for x in opt.img_size]`
(export.py line 81), applied to the already-expanded size list. -/
def validatedImgSize (gs : Nat) (raw : List Nat) : List Nat :=
  (expandImgSize raw).map (fun x => check_img_size x gs)

/-! ### Concrete instances used by witnesses and counterexamples -/

/-- A default option set: weights at `./weights/yolov3.pt`, no cfg override,
no recipe, static axes, no grid export. -/
def optRawNoCfg : Opt :=
  { weights := "./weights/yolov3.pt", imgSize := [640, 640], batchSize := 1,
    dynamic := false, grid := false, device := "cpu",
    cfg := none, sparsemlRecipe := none }

/-- Options configuring a sparsification recipe together with dynamic axes. -/
def optRecipeDynamic : Opt :=
  { weights := "./weights/yolov3.pt", imgSize := [640, 640], batchSize := 1,
    dynamic := true, grid := false, device := "cpu",
    cfg := none, sparsemlRecipe := some "recipe.yaml" }
/-- Options configuring a sparsification recipe with neither dynamic axes nor
the grid flag. -/
def optRecipeOnly : Opt :=
  { weights := "./weights/yolov3.pt", imgSize := [640, 640], batchSize := 1,
    dynamic := false, grid := false, device := "cpu",
    cfg := none, sparsemlRecipe := some "recipe.yaml" }
/-- A packaged-module checkpoint with one parameter. -/
def ckptPackaged : CkptPayload :=
  CkptPayload.packagedModel [("model.0.conv.weight", [16, 3, 3, 3])] "yolov3.yaml"
/-- An environment in which every external collaborator succeeds. -/
def envAllOk : Env :=
  { traceOk := true, tsSaveOk := true, onnxImportOk := true, onnxExportOk := true,
    skipQuantizeOk := true, onnxCheckOk := true, ctImportOk := true, ctConvertOk := true }
/-- An environment in which `torch.jit.trace` raises and everything else
succeeds. -/
def envTraceFail : Env :=
  { traceOk := false, tsSaveOk := true, onnxImportOk := true, onnxExportOk := true,
    skipQuantizeOk := true, onnxCheckOk := true, ctImportOk := true, ctConvertOk := true }
/-- A Conv submodule with a reference Hardswish activation, a nonempty
non-persistent-buffer set, and distinctive other attributes. -/
def convModule : PyModule :=
  { nonPersistentBuffersSet := ["num_batches_tracked"], isConv := true,
    act := Activation.hardswishNN, exportFlag := false,
    params := [("conv.weight", [16, 3, 3, 3])], otherAttrs := 7 }
/-- A terminal Detect-style module: not a Conv, other activation, export flag
initially false. -/
def detectModule : PyModule :=
  { nonPersistentBuffersSet := [], isConv := false,
    act := Activation.otherAct 0, exportFlag := false,
    params := [("anchors", [3, 2])], otherAttrs := 3 }

/-! ### Theorems -/

/-- C9: an image size given as a single integer `n` is expanded to the square
pair `(n, n)` before the grid-multiple validation against the model's maximum
stride is applied (the validation maps over the already-expanded list); a size
given as two integers is left unchanged by the expansion. -/
theorem spec_c9 :
    (∀ n : Nat, expandImgSize [n] = [n, n]) ∧
    (∀ a b : Nat, expandImgSize [a, b] = [a, b]) ∧
    (∀ gs n : Nat,
      validatedImgSize gs [n] = [check_img_size n gs, check_img_size n gs]) :=
  ⟨fun _ => rfl, fun _ _ => rfl, fun _ _ => rfl⟩

/-- C5: the weight load is strict: whenever some parameter name of the target
model is absent from the resolved weight mapping or present with a mismatched
shape, `load_state_dict(strict=True)` fails with `WeightMismatchError`, and no
partial or best-effort load occurs (no loaded model is ever returned). -/
theorem spec_c5 (params sd : StateDict) (n : String) (s : Shape)
    (hmem : (n, s) ∈ params) (hmis : sd.lookup n ≠ some s) :
    loadStateDictStrict params sd = Except.error Err.weightMismatchError ∧
    ∀ r, loadStateDictStrict params sd ≠ Except.ok r := by
  have hcond : (params.all (fun p => sd.lookup p.1 == some p.2) &&
      sd.all (fun q => (params.lookup q.1).isSome)) ≠ true := by
    intro hc
    have h1 := (Bool.and_eq_true _ _).mp hc |>.1
    have h2 := List.all_eq_true.mp h1 (n, s) hmem
    exact hmis (by simpa using h2)
  constructor
  · simp only [loadStateDictStrict, if_neg hcond]
  · intro r
    simp only [loadStateDictStrict, if_neg hcond]
    intro h
    exact Except.noConfusion h

/-- Witness for C5 at a concrete model and mapping: the model has one
parameter `"a"` of shape `[2]` and the mapping is empty, so the strict load
fails and never returns a loaded model. -/
theorem spec_c5_witness :
    loadStateDictStrict [("a", [2])] [] = Except.error Err.weightMismatchError ∧
    ∀ r, loadStateDictStrict [("a", [2])] [] ≠ Except.ok r :=
  spec_c5 [("a", [2])] [] "a" [2] (by decide) (by decide)

/-- C6: when the checkpoint payload is a raw weight mapping (no embedded
module) and no architecture-config override is supplied, `load_model` fails
with `ConfigurationError` whose message identifies the problem, and no model
is constructed (no `constructModel` event appears in the trace). -/
theorem spec_c6 (modelOf : String → StateDict) (opt : Opt) (w : StateDict)
    (hcfg : opt.cfg = none) :
    (loadModel modelOf opt (CkptPayload.rawWeights w)).1 =
      Except.error (Err.configurationError
        (opt.weights ++ " does not load a Module object and no Model cfg given to load into a Module")) ∧
    Ev.constructModel ∉ (loadModel modelOf opt (CkptPayload.rawWeights w)).2 := by
  constructor
  · simp [loadModel, isPickedModel, hcfg]
  · simp [loadModel, isPickedModel, hcfg]

/-- Witness for C6 at a concrete option set and raw-weights checkpoint. -/
theorem spec_c6_witness :
    (loadModel (fun _ => []) optRawNoCfg (CkptPayload.rawWeights [("a", [2])])).1 =
      Except.error (Err.configurationError
        (optRawNoCfg.weights ++ " does not load a Module object and no Model cfg given to load into a Module")) ∧
    Ev.constructModel ∉
      (loadModel (fun _ => []) optRawNoCfg (CkptPayload.rawWeights [("a", [2])])).2 :=
  spec_c6 (fun _ => []) optRawNoCfg [("a", [2])] rfl




/-- C1 fails on the code: at a configuration with a sparsification recipe and
`dynamic_axes=true`, `load_model` does raise the `ConfigurationError`, but
only after the weights file has been downloaded, the checkpoint deserialized
and the model instance constructed — all three events are in the trace of the
failing run, contradicting the claim that the failure happens before any file
I/O and before any model instance is constructed. -/
theorem spec_c1_counterexample :
    optRecipeDynamic.sparsemlRecipe.isSome = true ∧
    optRecipeDynamic.dynamic = true ∧
    (loadModel (fun _ => []) optRecipeDynamic ckptPackaged).1 =
      Except.error (Err.configurationError
        "--grid and --dynamic not supported for exports with sparsification") ∧
    (loadModel (fun _ => []) optRecipeDynamic ckptPackaged).2 =
      [Ev.download, Ev.deserialize, Ev.constructModel] ∧
    Ev.download ∈ (loadModel (fun _ => []) optRecipeDynamic ckptPackaged).2 ∧
    Ev.deserialize ∈ (loadModel (fun _ => []) optRecipeDynamic ckptPackaged).2 ∧
    Ev.constructModel ∈ (loadModel (fun _ => []) optRecipeDynamic ckptPackaged).2 := by
  refine ⟨rfl, rfl, rfl, rfl, by decide, by decide, by decide⟩

/-- C1 amended: with a sparsification recipe configured together with
`dynamic_axes` or the grid flag, and a checkpoint that is otherwise resolvable
(an embedded module or a cfg override), `load_model` fails with the
`ConfigurationError` before the recipe is applied and before any weights are
loaded — no recipe initialization and no `load_state_dict` call occur — but
only after the download, deserialization and model-construction steps. -/
theorem spec_c1_amended (modelOf : String → StateDict) (opt : Opt)
    (ckpt : CkptPayload)
    (hrec : opt.sparsemlRecipe.isSome = true)
    (hflag : opt.dynamic = true ∨ opt.grid = true)
    (hres : isPickedModel ckpt = true ∨ opt.cfg.isSome = true) :
    (loadModel modelOf opt ckpt).1 =
      Except.error (Err.configurationError
        "--grid and --dynamic not supported for exports with sparsification") ∧
    (loadModel modelOf opt ckpt).2 =
      [Ev.download, Ev.deserialize, Ev.constructModel] ∧
    Ev.recipeApply ∉ (loadModel modelOf opt ckpt).2 ∧
    Ev.enableQuantModifiers ∉ (loadModel modelOf opt ckpt).2 ∧
    Ev.loadStateDict ∉ (loadModel modelOf opt ckpt).2 := by
  rcases hr : opt.sparsemlRecipe with _ | r
  · rw [hr] at hrec; exact absurd hrec (by decide)
  · have hguard : (!isPickedModel ckpt && opt.cfg.isNone) = false := by
      rcases hres with h | h
      · simp [h]
      · rcases hc : opt.cfg with _ | c
        · rw [hc] at h; exact absurd h (by decide)
        · simp [hc]
    have hgd : (opt.grid || opt.dynamic) = true := by
      rcases hflag with h | h <;> simp [h]
    refine ⟨?_, ?_, ?_, ?_, ?_⟩ <;>
      simp [loadModel, hguard, hr, hgd]

/-- Witness for C1 amended at the concrete recipe-plus-dynamic configuration
and a packaged checkpoint. -/
theorem spec_c1_amended_witness :
    (loadModel (fun _ => []) optRecipeDynamic ckptPackaged).1 =
      Except.error (Err.configurationError
        "--grid and --dynamic not supported for exports with sparsification") ∧
    (loadModel (fun _ => []) optRecipeDynamic ckptPackaged).2 =
      [Ev.download, Ev.deserialize, Ev.constructModel] ∧
    Ev.recipeApply ∉ (loadModel (fun _ => []) optRecipeDynamic ckptPackaged).2 ∧
    Ev.enableQuantModifiers ∉ (loadModel (fun _ => []) optRecipeDynamic ckptPackaged).2 ∧
    Ev.loadStateDict ∉ (loadModel (fun _ => []) optRecipeDynamic ckptPackaged).2 :=
  spec_c1_amended (fun _ => []) optRecipeDynamic ckptPackaged rfl (Or.inl rfl) (Or.inl rfl)

/-- In a recipe-configured run that passes both `load_model` guards, the event
trace is the fixed recipe-then-load sequence, with `castFloat` appended when
the strict load succeeded. -/
theorem loadModel_recipe_trace (modelOf : String → StateDict) (opt : Opt)
    (ckpt : CkptPayload) (r : String)
    (hr : opt.sparsemlRecipe = some r)
    (hguard : (!isPickedModel ckpt && opt.cfg.isNone) = false)
    (hgd : (opt.grid || opt.dynamic) = false) :
    (loadModel modelOf opt ckpt).2 =
      [Ev.download, Ev.deserialize, Ev.constructModel,
       Ev.enableQuantModifiers, Ev.recipeApply, Ev.loadStateDict] ∨
    (loadModel modelOf opt ckpt).2 =
      [Ev.download, Ev.deserialize, Ev.constructModel,
       Ev.enableQuantModifiers, Ev.recipeApply, Ev.loadStateDict, Ev.castFloat] := by
  rcases h : loadStateDictStrict (resolvedParams modelOf opt ckpt) (ckptStateDict ckpt)
    with e | l
  · left
    simp [loadModel, finishLoad, hguard, hr, hgd, h]
  · right
    simp [loadModel, finishLoad, hguard, hr, hgd, h]

/-- C7: in every run of `load_model` with a sparsification recipe configured
in which the strict weight load is reached, the recipe application — setting
`enable_on_initialize` on the quantization modifiers and
`manager.initialize` — happens strictly before `load_state_dict`: each of the
three events occurs exactly once in the trace and both recipe events are
indexed strictly before the load event, so recipe application never occurs
after `load_state_dict`. -/
theorem spec_c7 (modelOf : String → StateDict) (opt : Opt) (ckpt : CkptPayload)
    (hrec : opt.sparsemlRecipe.isSome = true)
    (hload : Ev.loadStateDict ∈ (loadModel modelOf opt ckpt).2) :
    (loadModel modelOf opt ckpt).2.count Ev.recipeApply = 1 ∧
    (loadModel modelOf opt ckpt).2.count Ev.enableQuantModifiers = 1 ∧
    (loadModel modelOf opt ckpt).2.count Ev.loadStateDict = 1 ∧
    (loadModel modelOf opt ckpt).2.indexOf Ev.recipeApply <
      (loadModel modelOf opt ckpt).2.indexOf Ev.loadStateDict ∧
    (loadModel modelOf opt ckpt).2.indexOf Ev.enableQuantModifiers <
      (loadModel modelOf opt ckpt).2.indexOf Ev.loadStateDict := by
  rcases hr : opt.sparsemlRecipe with _ | r
  · rw [hr] at hrec; exact absurd hrec (by decide)
  by_cases hguard : (!isPickedModel ckpt && opt.cfg.isNone) = true
  · simp [loadModel, hguard] at hload
  rw [Bool.not_eq_true] at hguard
  by_cases hgd : (opt.grid || opt.dynamic) = true
  · simp [loadModel, hguard, hr, hgd] at hload
  rw [Bool.not_eq_true] at hgd
  rcases loadModel_recipe_trace modelOf opt ckpt r hr hguard hgd with h | h <;>
    rw [h] <;> decide

/-- Witness for C7 at a concrete run with a recipe, no dynamic/grid flags and
a matching packaged checkpoint, in which the strict load is reached. -/
theorem spec_c7_witness :
    (loadModel (fun _ => []) optRecipeOnly ckptPackaged).2.count Ev.recipeApply = 1 ∧
    (loadModel (fun _ => []) optRecipeOnly ckptPackaged).2.count Ev.enableQuantModifiers = 1 ∧
    (loadModel (fun _ => []) optRecipeOnly ckptPackaged).2.count Ev.loadStateDict = 1 ∧
    (loadModel (fun _ => []) optRecipeOnly ckptPackaged).2.indexOf Ev.recipeApply <
      (loadModel (fun _ => []) optRecipeOnly ckptPackaged).2.indexOf Ev.loadStateDict ∧
    (loadModel (fun _ => []) optRecipeOnly ckptPackaged).2.indexOf Ev.enableQuantModifiers <
      (loadModel (fun _ => []) optRecipeOnly ckptPackaged).2.indexOf Ev.loadStateDict :=
  spec_c7 (fun _ => []) optRecipeOnly ckptPackaged rfl (by decide)



/-- C4: for every combination of per-collaborator successes and failures, the
backend sequence produces exactly one result per backend, in the fixed order
TorchScript, ONNX, CoreML; every result is either a `Success` carrying an
artifact path or a `Failed` carrying the captured error, so no backend failure
escapes the sequencer and no backend is ever skipped from the result list. -/
theorem spec_c4 (opt : Opt) (env : Env) (y : PyVal) :
    (runBackends opt env y).results.map ExportResult.backend =
      [Backend.torchscript, Backend.onnx, Backend.coreml] ∧
    (runBackends opt env y).results.length = 3 ∧
    ∀ r ∈ (runBackends opt env y).results,
      (r.status = Status.failed ↔ r.errorDetail.isSome = true) ∧
      (r.status = Status.success ↔ r.outputPath.isSome = true) := by
  rcases h1 : torchscriptBody opt env with e1 | f1 <;>
    rcases h2 : onnxBody opt env with e2 | f2 <;>
      rcases h3 : coremlBody opt env env.traceOk with e3 | f3 <;>
        refine ⟨?_, ?_, ?_⟩ <;>
          simp [runBackends, attemptBackend, h1, h2, h3]

/-- Witness for C4 at the all-successful environment: the result sequence is
the three backends in order, and the TorchScript result — an element of the
sequence — is a `Success` with an artifact path and no error detail. -/
theorem spec_c4_witness :
    ((runBackends optRawNoCfg envAllOk PyVal.tensor).results.map ExportResult.backend =
      [Backend.torchscript, Backend.onnx, Backend.coreml]) ∧
    (({ backend := Backend.torchscript, status := Status.success,
        outputPath := some (torchscriptFilename optRawNoCfg.weights),
        errorDetail := none } : ExportResult).status = Status.failed ↔
      ({ backend := Backend.torchscript, status := Status.success,
         outputPath := some (torchscriptFilename optRawNoCfg.weights),
         errorDetail := none } : ExportResult).errorDetail.isSome = true) :=
  ⟨(spec_c4 optRawNoCfg envAllOk PyVal.tensor).1,
   ((spec_c4 optRawNoCfg envAllOk PyVal.tensor).2.2
     { backend := Backend.torchscript, status := Status.success,
       outputPath := some (torchscriptFilename optRawNoCfg.weights),
       errorDetail := none } (by decide)).1⟩

/-- C2 fails on the code: when `torch.jit.trace` raises (so the TorchScript
export is reported `Failed`), the CoreML block is still entered and reaches
the `ct.convert(ts, ...)` statement — it is attempted, not skipped — and it
fails with the incidental `NameError` on the unbound local `ts`, not with a
dependency-reason error detail. -/
theorem spec_c2_counterexample :
    ((runBackends optRawNoCfg envTraceFail PyVal.tensor).results[0]?).map
      ExportResult.status = some Status.failed ∧
    (runBackends optRawNoCfg envTraceFail PyVal.tensor).coremlConversionReached = true ∧
    ((runBackends optRawNoCfg envTraceFail PyVal.tensor).results[2]?).map
      ExportResult.errorDetail = some (some (Err.nameError "ts")) := by
  refine ⟨rfl, rfl, rfl⟩

/-- C2 amended: when the TorchScript tracing fails and `coremltools` imports
successfully, the CoreML export is still attempted — control reaches the
conversion call — and it necessarily fails, reported `Failed` with the
unbound-name error on the trace variable `ts` and with no artifact path; it is
not skipped, and its error detail is the incidental `NameError`, not an
explicit dependency reason. -/
theorem spec_c2_amended (opt : Opt) (env : Env) (y : PyVal)
    (htrace : env.traceOk = false) (hct : env.ctImportOk = true) :
    (runBackends opt env y).coremlConversionReached = true ∧
    (runBackends opt env y).results[2]? =
      some { backend := Backend.coreml, status := Status.failed,
             outputPath := none, errorDetail := some (Err.nameError "ts") } := by
  rcases h1 : torchscriptBody opt env with e1 | f1 <;>
    rcases h2 : onnxBody opt env with e2 | f2 <;>
      refine ⟨?_, ?_⟩ <;>
        simp [runBackends, attemptBackend, coremlBody, h1, h2, htrace, hct]

/-- Witness for C2 amended at the concrete trace-failure environment. -/
theorem spec_c2_amended_witness :
    (runBackends optRawNoCfg envTraceFail PyVal.tensor).coremlConversionReached = true ∧
    (runBackends optRawNoCfg envTraceFail PyVal.tensor).results[2]? =
      some { backend := Backend.coreml, status := Status.failed,
             outputPath := none, errorDetail := some (Err.nameError "ts") } :=
  spec_c2_amended optRawNoCfg envTraceFail PyVal.tensor rfl rfl

/-- C3 fails on the code: in the standard ONNX path, when the dry-run forward
pass returned a `(classes, boxes)` pair — a value that is not `None` — the
recorded `torch.onnx.export` call names its outputs `["output"]`, not
`["classes", "boxes"]` as the claim requires for the pair arity. -/
theorem spec_c3_counterexample :
    ((runBackends optRawNoCfg envAllOk PyVal.pair).onnxCall).map OnnxCall.outputNames =
      some ["output"] ∧
    (["output"] : List String) ≠ ["classes", "boxes"] ∧
    ((runBackends optRawNoCfg envAllOk PyVal.pair).onnxCall).map OnnxCall.outputNames ≠
      some ["classes", "boxes"] := by
  refine ⟨rfl, by decide, by decide⟩

/-- C3 amended: in the standard (non-recipe) ONNX export path the input tensor
is named `"images"` and the opset is 12, but the output names follow the
`y is None` test of the dry-run value, not its arity: `["classes", "boxes"]`
exactly when the dry run returned `None`, and the single name `["output"]` in
every other case — for a single tensor and for a `(classes, boxes)` pair
alike; dynamic axes are requested iff `opt.dynamic`. -/
theorem spec_c3_amended (opt : Opt) (env : Env) (y : PyVal)
    (hrec : opt.sparsemlRecipe = none) (himp : env.onnxImportOk = true) :
    (runBackends opt env y).onnxCall = some (standardOnnxExportArgs opt y) ∧
    (standardOnnxExportArgs opt y).inputNames = ["images"] ∧
    (standardOnnxExportArgs opt y).outputNames =
      (if y = PyVal.noneVal then ["classes", "boxes"] else ["output"]) ∧
    (standardOnnxExportArgs opt y).opsetVersion = 12 ∧
    (standardOnnxExportArgs opt y).hasDynamicAxes = opt.dynamic := by
  refine ⟨?_, rfl, rfl, rfl, rfl⟩
  simp [runBackends, hrec, himp]

/-- Witness for C3 amended: at the concrete no-recipe options with a
single-tensor dry run, the recorded call names the input `"images"` and the
output `"output"`. -/
theorem spec_c3_amended_witness :
    (runBackends optRawNoCfg envAllOk PyVal.tensor).onnxCall =
      some (standardOnnxExportArgs optRawNoCfg PyVal.tensor) ∧
    (standardOnnxExportArgs optRawNoCfg PyVal.tensor).inputNames = ["images"] ∧
    (standardOnnxExportArgs optRawNoCfg PyVal.tensor).outputNames =
      (if PyVal.tensor = PyVal.noneVal then ["classes", "boxes"] else ["output"]) ∧
    (standardOnnxExportArgs optRawNoCfg PyVal.tensor).opsetVersion = 12 ∧
    (standardOnnxExportArgs optRawNoCfg PyVal.tensor).hasDynamicAxes = optRawNoCfg.dynamic :=
  spec_c3_amended optRawNoCfg envAllOk PyVal.tensor rfl rfl

/-- On a character list with no `.pt` occurrence, appending the pattern and
replacing yields the list with `repl` appended: the single trailing occurrence
is the only one replaced. -/
theorem replacePtAux_append (repl : List Char) :
    ∀ l : List Char, hasPtSub l = false →
      replacePtAux repl (l ++ ['.', 'p', 't']) = l ++ repl
  | [], _ => by
    simp [replacePtAux]
  | [c], _ => by
    have hc : ¬(c = '.' ∧ '.' = 'p' ∧ 'p' = 't') := by
      rintro ⟨_, h2, _⟩
      exact absurd h2 (by decide)
    simp only [List.cons_append, List.nil_append, replacePtAux, if_neg hc]
    simp [replacePtAux]
  | [c1, c2], _ => by
    have hc : ¬(c1 = '.' ∧ c2 = 'p' ∧ '.' = 't') := by
      rintro ⟨_, _, h3⟩
      exact absurd h3 (by decide)
    have hc2 : ¬(c2 = '.' ∧ '.' = 'p' ∧ 'p' = 't') := by
      rintro ⟨_, h2, _⟩
      exact absurd h2 (by decide)
    simp only [List.cons_append, List.nil_append, replacePtAux, if_neg hc, if_neg hc2]
    simp [replacePtAux]
  | c1 :: c2 :: c3 :: rest, h => by
    have hc : ¬(c1 = '.' ∧ c2 = 'p' ∧ c3 = 't') := by
      intro hcontra
      have : hasPtSub (c1 :: c2 :: c3 :: rest) = true := by
        simp [hasPtSub, if_pos hcontra]
      rw [this] at h
      exact absurd h (by decide)
    have htail : hasPtSub (c2 :: c3 :: rest) = false := by
      have := h
      rw [hasPtSub, if_neg hc] at this
      exact this
    have ih := replacePtAux_append repl (c2 :: c3 :: rest) htail
    calc replacePtAux repl ((c1 :: c2 :: c3 :: rest) ++ ['.', 'p', 't'])
        = c1 :: replacePtAux repl ((c2 :: c3 :: rest) ++ ['.', 'p', 't']) := by
          simp only [List.cons_append, replacePtAux, if_neg hc, List.append_eq]
      _ = c1 :: ((c2 :: c3 :: rest) ++ repl) := by rw [ih]
      _ = (c1 :: c2 :: c3 :: rest) ++ repl := by simp

/-- C8 fails on the code: the artifact names are produced by
`str.replace('.pt', ...)`, which replaces every occurrence of the substring
`".pt"`, not only the trailing extension. For the weights path
`"./weights.pt/yolov3.pt"` — whose trailing `".pt"` extension follows the stem
`"./weights.pt/yolov3"` — the ONNX artifact is `"./weights.onnx/yolov3.onnx"`:
the rest of the path is not left unchanged. -/
theorem spec_c8_counterexample :
    "./weights.pt/yolov3.pt" = "./weights.pt/yolov3" ++ ".pt" ∧
    onnxFilename "./weights.pt/yolov3.pt" = "./weights.onnx/yolov3.onnx" ∧
    onnxFilename "./weights.pt/yolov3.pt" ≠ "./weights.pt/yolov3" ++ ".onnx" ∧
    torchscriptFilename "./weights.pt/yolov3.pt" ≠
      "./weights.pt/yolov3" ++ ".torchscript.pt" ∧
    coremlFilename "./weights.pt/yolov3.pt" ≠ "./weights.pt/yolov3" ++ ".mlmodel" := by
  refine ⟨rfl, rfl, by decide, by decide, by decide⟩

/-- C8 amended: each artifact path is the weights path with every occurrence
of the substring `".pt"` replaced (`".torchscript.pt"` for TorchScript,
`".onnx"` for ONNX, `".mlmodel"` for CoreML). When `".pt"` occurs exactly
once, as the trailing extension — i.e. for any stem containing no `".pt"` —
this coincides with the claimed extension substitution and the rest of the
path is unchanged. -/
theorem spec_c8_amended (stem : String) (h : containsDotPt stem = false) :
    torchscriptFilename (stem ++ ".pt") = stem ++ ".torchscript.pt" ∧
    onnxFilename (stem ++ ".pt") = stem ++ ".onnx" ∧
    coremlFilename (stem ++ ".pt") = stem ++ ".mlmodel" := by
  have key : ∀ repl : String,
      pyReplacePt (stem ++ ".pt") repl = ⟨stem.data ++ repl.data⟩ := by
    intro repl
    have hdata : (stem ++ ".pt").data = stem.data ++ ['.', 'p', 't'] := by
      rfl
    unfold pyReplacePt
    rw [hdata, replacePtAux_append repl.data stem.data h]
  refine ⟨?_, ?_, ?_⟩ <;>
    simp only [torchscriptFilename, onnxFilename, coremlFilename, key] <;> rfl

/-- Witness for C8 amended at the concrete stem `"./weights/yolov3"`. -/
theorem spec_c8_amended_witness :
    torchscriptFilename ("./weights/yolov3" ++ ".pt") =
      "./weights/yolov3" ++ ".torchscript.pt" ∧
    onnxFilename ("./weights/yolov3" ++ ".pt") = "./weights/yolov3" ++ ".onnx" ∧
    coremlFilename ("./weights/yolov3" ++ ".pt") = "./weights/yolov3" ++ ".mlmodel" :=
  spec_c8_amended "./weights/yolov3" (by decide)

/-- Indexed characterization of `setLastExportFlag`: only the last element's
export flag is patched; every other position is returned untouched. -/
theorem setLastExportFlag_getElem? (g : Bool) :
    ∀ (l : List PyModule) (i : Nat),
      (setLastExportFlag g l)[i]? =
        if i + 1 = l.length then
          (l[i]?).map (fun m => { m with exportFlag := g })
        else l[i]?
  | [], i => by
    simp [setLastExportFlag]
  | [m], 0 => by
    simp [setLastExportFlag]
  | [m], (i + 1) => by
    simp [setLastExportFlag]
  | m :: m2 :: rest, 0 => by
    simp [setLastExportFlag]
  | m :: m2 :: rest, (i + 1) => by
    have ih := setLastExportFlag_getElem? g (m2 :: rest) i
    simp only [setLastExportFlag, List.getElem?_cons_succ, ih, List.length_cons]
    have hcond : (i + 1 = rest.length + 1) ↔ (i + 1 + 1 = rest.length + 1 + 1) := by
      omega
    by_cases hc : i + 1 = rest.length + 1
    · rw [if_pos hc, if_pos (hcond.mp hc)]
    · rw [if_neg hc, if_neg (fun hx => hc (hcond.mpr hx))]

/-- `setLastExportFlag` preserves the length of the module list. -/
theorem setLastExportFlag_length (g : Bool) :
    ∀ l : List PyModule, (setLastExportFlag g l).length = l.length
  | [] => rfl
  | [_] => rfl
  | _ :: m2 :: rest => by
    simp only [setLastExportFlag, List.length_cons]
    rw [setLastExportFlag_length g (m2 :: rest)]
    simp

/-- C10: the export-mode transform changes exactly three things. For every
index `i` of the module list, the transformed module at `i` has: the
non-persistent-buffer set emptied; its activation replaced by the
export-friendly equivalent when the module is a `Conv` whose activation is
`nn.Hardswish` or `nn.SiLU`, and left untouched otherwise; and its export
flag overwritten with the negation of the grid option exactly when `i` is the
terminal (last) position. The parameters, the `Conv` tag, all remaining
attributes, and the export flag of non-terminal modules are unchanged, and the
list keeps its length. -/
theorem spec_c10 (grid : Bool) (ms : List PyModule) (i : Nat) (m m2 : PyModule)
    (hm : ms[i]? = some m) (hm2 : (updateModel grid ms)[i]? = some m2) :
    (updateModel grid ms).length = ms.length ∧
    m2.params = m.params ∧
    m2.otherAttrs = m.otherAttrs ∧
    m2.isConv = m.isConv ∧
    m2.nonPersistentBuffersSet = [] ∧
    m2.act =
      (if m.isConv then
        match m.act with
        | Activation.hardswishNN => Activation.hardswishExport
        | Activation.siluNN => Activation.siluExport
        | a => a
      else m.act) ∧
    m2.exportFlag = (if i + 1 = ms.length then !grid else m.exportFlag) := by
  have hlen : (updateModel grid ms).length = ms.length := by
    unfold updateModel
    rw [setLastExportFlag_length, List.length_map]
  refine ⟨hlen, ?_⟩
  unfold updateModel at hm2
  rw [setLastExportFlag_getElem?] at hm2
  rw [List.length_map, List.getElem?_map, hm] at hm2
  by_cases hi : i + 1 = ms.length
  · rw [if_pos hi] at hm2
    simp only [Option.map_some'] at hm2
    rw [if_pos hi]
    cases hm2
    simp [updateSubmodule]
  · rw [if_neg hi] at hm2
    simp only [Option.map_some'] at hm2
    rw [if_neg hi]
    cases hm2
    simp [updateSubmodule]



/-- Witness for C10 at the concrete two-module model, grid disabled, at the
terminal index 1: the result keeps everything of `detectModule` except the
buffers and the export flag, which becomes `!false = true`. -/
theorem spec_c10_witness :
    (updateModel false [convModule, detectModule]).length =
      ([convModule, detectModule] : List PyModule).length ∧
    ({ detectModule with exportFlag := true } : PyModule).params = detectModule.params ∧
    ({ detectModule with exportFlag := true } : PyModule).otherAttrs = detectModule.otherAttrs ∧
    ({ detectModule with exportFlag := true } : PyModule).isConv = detectModule.isConv ∧
    ({ detectModule with exportFlag := true } : PyModule).nonPersistentBuffersSet = [] ∧
    ({ detectModule with exportFlag := true } : PyModule).act =
      (if detectModule.isConv then
        match detectModule.act with
        | Activation.hardswishNN => Activation.hardswishExport
        | Activation.siluNN => Activation.siluExport
        | a => a
      else detectModule.act) ∧
    ({ detectModule with exportFlag := true } : PyModule).exportFlag =
      (if 1 + 1 = ([convModule, detectModule] : List PyModule).length then !false
       else detectModule.exportFlag) :=
  spec_c10 false [convModule, detectModule] 1 detectModule
    { detectModule with exportFlag := true } rfl rfl

end YoloExport
